import Mathlib

/-
Verification of the visual-regression HTTP API in src/server.js.

The embedding is shallow: the request handlers become pure Lean functions
over an explicit server state (the in-memory image map, a model of the
relevant file contents, the listing of the test-bitmap directory, and the
generated config file).  External nondeterminism (the exit code and output
streams of the spawned subprocess, the wall-clock timestamp) is passed in
as an explicit environment value.  JavaScript falsiness of the string
fields read from the request body is modelled by the empty string, and a
missing file or query parameter by Option.
-/

set_option autoImplicit false

namespace BackstopApi

/-! ## String helpers (models of String.prototype.includes and friends) -/

/-- Decides whether the first list is a prefix of the second. -/
def isPrefixOfList : List Char → List Char → Bool
  | [], _ => true
  | _ :: _, [] => false
  | a :: as, b :: bs => a = b && isPrefixOfList as bs

/-- Decides whether the first list occurs as a contiguous sublist of the second. -/
def isSubListOf : List Char → List Char → Bool
  | needle, [] => needle.isEmpty
  | needle, hay@(_ :: rest) => isPrefixOfList needle hay || isSubListOf needle rest

/-- Model of the JavaScript hay.includes(needle) substring test. -/
def strIncludes (hay needle : String) : Bool :=
  isSubListOf needle.data hay.data

/-- Model of the JavaScript s.endsWith(suffix) test. -/
def strEndsWith (s suffix : String) : Bool :=
  isPrefixOfList suffix.data.reverse s.data.reverse

/-- ASCII lowering of one character (the effect of toLowerCase on the
ASCII names this server handles). -/
def charLower (c : Char) : Char :=
  if 'A' ≤ c ∧ c ≤ 'Z' then Char.ofNat (c.toNat + 32) else c

/-- Model of the JavaScript s.toLowerCase(). -/
def strLower (s : String) : String :=
  String.mk (s.data.map charLower)

/-! ## Base64 (model of Buffer.toString with base64 encoding) -/

/-- The base64 alphabet, indexed 0..63. -/
def base64Alphabet : List Char :=
  "ABCDEFGHIJKLMNOPQRSTUVWXYZabcdefghijklmnopqrstuvwxyz0123456789+/".data

/-- Character of the base64 alphabet at a 6-bit index. -/
def b64Char (n : Nat) : Char :=
  (base64Alphabet.getD (n % 64) 'A')

/-- Base64 encoding of a byte list (bytes are Nat values below 256),
with the standard padding of the final group. -/
def base64Encode : List Nat → String
  | [] => ""
  | [a] =>
      String.mk [b64Char (a / 4), b64Char (a % 4 * 16), '=', '=']
  | [a, b] =>
      String.mk [b64Char (a / 4), b64Char (a % 4 * 16 + b / 16), b64Char (b % 16 * 4), '=']
  | a :: b :: c :: rest =>
      String.mk [b64Char (a / 4), b64Char (a % 4 * 16 + b / 16),
        b64Char (b % 16 * 4 + c / 64), b64Char (c % 64)] ++ base64Encode rest

/-! ## Constants from the top of server.js -/

def PORT : Nat := 3000

def uploadsDir : String := "temp_uploads"
def referenceDir : String := "backstop_data/bitmaps_reference"
def testDir : String := "backstop_data/bitmaps_test"
def diffImagesDir : String := "diff_images"
def htmlReportDir : String := "backstop_data/html_report"

/-! ## Data model -/

/-- Record stored in the uploadedImages map for one upload: the on-disk
path of the multipart temp file, the declared content type and the original
filename.  An empty mimetype models a falsy (missing) content type. -/
structure ImageRecord where
  path : String
  mimetype : String
  originalname : String
  deriving DecidableEq, Repr

/-- The in-memory image store (the uploadedImages JavaScript Map),
modelled as an association list where the most recent binding for a key
comes first, so that set is an unconditional overwrite for get and has. -/
def Store := List (String × ImageRecord)

instance : DecidableEq Store := inferInstanceAs (DecidableEq (List (String × ImageRecord)))

/-- Model of Map.prototype.set: binds key to record, shadowing any
previous binding for the same key. -/
def Store.set (s : Store) (k : String) (v : ImageRecord) : Store :=
  (k, v) :: s

/-- Model of Map.prototype.get: the most recent record bound to the key,
or none. -/
def Store.get : Store → String → Option ImageRecord
  | [], _ => none
  | (k, v) :: rest, key => if k = key then some v else Store.get rest key

/-- Model of Map.prototype.has. -/
def Store.has (s : Store) (k : String) : Bool :=
  (Store.get s k).isSome

/-- Model of the file system as far as the handlers read or write it:
file contents by path (bytes as Nat values).  A path absent from the list
models fs.existsSync returning false. -/
def FileSys := List (String × List Nat)

instance : DecidableEq FileSys := inferInstanceAs (DecidableEq (List (String × List Nat)))

/-- File contents at a path, or none when the file does not exist. -/
def FileSys.read : FileSys → String → Option (List Nat)
  | [], _ => none
  | (p, bs) :: rest, path => if p = path then some bs else FileSys.read rest path

/-- Writing a file (copyFileSync destination, writeFileSync). -/
def FileSys.write (fs : FileSys) (p : String) (bs : List Nat) : FileSys :=
  (p, bs) :: fs

/-! ## Config synthesis (createBackstopConfig, lines 28-56) -/

/-- One viewport entry of the generated configuration. -/
structure Viewport where
  label : String
  width : Nat
  height : Nat
  deriving DecidableEq, Repr

/-- One scenario entry of the generated configuration. -/
structure Scenario where
  label : String
  url : String
  selectors : List String
  misMatchThreshold : Rat
  requireSameDimensions : Bool
  delay : Nat
  deriving DecidableEq, Repr

/-- The paths block of the generated configuration. -/
structure ConfigPaths where
  bitmaps_reference : String
  bitmaps_test : String
  html_report : String
  ci_report : String
  deriving DecidableEq, Repr

/-- The generated BackstopJS configuration object. -/
structure Config where
  id : String
  viewports : List Viewport
  scenarios : List Scenario
  paths : ConfigPaths
  report : List String
  engine : String
  engineArgs : List String
  asyncCaptureLimit : Nat
  asyncCompareLimit : Nat
  deriving DecidableEq, Repr

/-- Model of createBackstopConfig: one scenario per test case, pointing
the capture URL at the serve-image endpoint for that test case. -/
def createBackstopConfig (testCases : List String) : Config :=
  let scenarios := testCases.map fun testCase =>
    { label := testCase
      url := "http://127.0.0.1:" ++ toString PORT ++ "/serve-image/" ++ testCase
      selectors := ["body"]
      misMatchThreshold := 1 / 10
      requireSameDimensions := false
      delay := 1000 : Scenario }
  { id := "visual_regression"
    viewports := [{ label := "desktop", width := 1280, height := 800 }]
    scenarios := scenarios
    paths :=
      { bitmaps_reference := referenceDir
        bitmaps_test := testDir
        html_report := htmlReportDir
        ci_report := "backstop_data/ci_report" }
    report := ["CI"]
    engine := "puppeteer"
    engineArgs := ["--no-sandbox", "--disable-setuid-sandbox", "--disable-dev-shm-usage"]
    asyncCaptureLimit := 1
    asyncCompareLimit := 1 }

/-! ## Server state -/

/-- The mutable state of the server process that the handlers touch:
the image map, the modelled file system, the directory listing of the
test-bitmap output directory (basenames, as readdirSync returns them),
and the generated config file, when one has been written. -/
structure ServerState where
  uploadedImages : Store
  fs : FileSys
  testDirFiles : List String
  configFile : Option Config
  deriving DecidableEq

/-- Model of updateBackstopConfig (lines 96-99): regenerate the config
and overwrite the well-known config file. -/
def updateBackstopConfig (st : ServerState) (testCases : List String) : ServerState :=
  { st with configFile := some (createBackstopConfig testCases) }

/-! ## Image Server (GET /serve-image/:testCase, lines 59-93) -/

/-- JavaScript falsiness of an optional query-string value: absent or empty. -/
def falsyOpt : Option String → Bool
  | none => true
  | some s => s = ""

/-- Observable outcome of the serve-image endpoint: a 404, or the HTML
page whose only payload is the embedded data URI (content type and base64
body) and the alt text. -/
inductive ServeResult where
  | notFound
  | page (mimeType : String) (base64 : String) (alt : String)
  deriving DecidableEq, Repr

/-- The data URI embedded in the served page. -/
def dataUri (mimeType base64 : String) : String :=
  "data:" ++ mimeType ++ ";base64," ++ base64

/-- Model of the GET /serve-image/:testCase handler.  The mode query
parameter is none when omitted. -/
def serveImage (st : ServerState) (testCase : String) (mode : Option String) : ServeResult :=
  let imageKey := if mode = some "reference" then testCase ++ "_reference" else testCase ++ "_current"
  let imageData := Store.get st.uploadedImages imageKey
  let imageData :=
    if imageData.isNone && falsyOpt mode then
      Store.get st.uploadedImages (testCase ++ "_reference")
    else imageData
  match imageData with
  | none => ServeResult.notFound
  | some d =>
    match FileSys.read st.fs d.path with
    | none => ServeResult.notFound
    | some bytes =>
      ServeResult.page (if d.mimetype = "" then "image/png" else d.mimetype)
        (base64Encode bytes) testCase

/-! ## Command Runner (runBackstopCommand, lines 102-123) -/

/-- Resolution value of a successful runBackstopCommand promise. -/
structure RunResult where
  success : Bool
  hasDifferences : Bool
  stdout : String
  stderr : String
  deriving DecidableEq, Repr

/-- External nondeterminism consumed by one POST /backstop request: the
exit code and captured output streams of the single subprocess the request
may spawn, and the ISO timestamp string used to name a copied diff. -/
structure Env where
  closeCode : Int
  closeStdout : String
  closeStderr : String
  timestamp : String

/-- Model of the close-event handler of runBackstopCommand: resolve when
the exit code is 0, or when the command is test and stdout contains the
token report; reject otherwise with a message carrying the code and the
captured stderr. -/
def classifyClose (command : String) (code : Int) (stdout stderr : String) :
    Except String RunResult :=
  if code = 0 ∨ (command = "test" ∧ strIncludes stdout "report" = true) then
    Except.ok { success := true, hasDifferences := code != 0, stdout := stdout, stderr := stderr }
  else
    Except.error ("BackstopJS failed with code " ++ toString code ++ ": " ++ stderr)

/-- Model of awaiting runBackstopCommand on the environment of the request. -/
def runBackstopCommand (command : String) (env : Env) : Except String RunResult :=
  classifyClose command env.closeCode env.closeStdout env.closeStderr

/-! ## Diff Locator (findAndCopyDiffImage, lines 126-154) -/

/-- Result of findAndCopyDiffImage: found flag and, when found, the
destination path and base64 payload of the copied artifact. -/
structure DiffInfo where
  found : Bool
  path : String := ""
  base64 : String := ""
  deriving DecidableEq, Repr

/-- The filename predicate of the find call: the lowercased basename must
contain the lowercased test case name, a diff or failed marker, and the
png extension. -/
def isDiffCandidate (testCase : String) (fileName : String) : Bool :=
  let name := strLower fileName
  strIncludes name (strLower testCase) &&
    (strIncludes name "diff" || strIncludes name "failed") &&
    strEndsWith name ".png"

/-- Model of the timestamp sanitization: replace every colon and dot with
a dash. -/
def sanitizeTimestamp (s : String) : String :=
  String.mk (s.data.map fun c => if c = ':' ∨ c = '.' then '-' else c)

/-- Model of findAndCopyDiffImage: scan the test-bitmap directory listing
for the first matching filename, copy the file into the diff-artifacts
directory under a timestamped name, and return its path and base64
payload.  A failing read of the source file is the caught-exception
branch and yields found = false. -/
def findAndCopyDiffImage (testCase : String) (st : ServerState) (ts : String) :
    DiffInfo × ServerState :=
  match st.testDirFiles.find? (fun f => isDiffCandidate testCase f) with
  | none => ({ found := false }, st)
  | some f =>
    let destPath := diffImagesDir ++ "/" ++ testCase ++ "_" ++ sanitizeTimestamp ts ++ "_diff.png"
    match FileSys.read st.fs (testDir ++ "/" ++ f) with
    | none => ({ found := false }, st)
    | some bytes =>
      ({ found := true, path := destPath, base64 := base64Encode bytes },
       { st with fs := FileSys.write st.fs destPath bytes })

/-! ## POST /backstop (lines 157-235) -/

/-- One uploaded multipart file as the upload middleware presents it. -/
structure UploadedFile where
  path : String
  mimetype : String
  originalname : String
  deriving DecidableEq, Repr

/-- A POST /backstop request.  The empty string for testCase or mode
models a missing or empty (falsy) body field; file is none when no file
was uploaded. -/
structure PostRequest where
  testCase : String
  mode : String
  file : Option UploadedFile

/-- Observable JSON response of POST /backstop.  badRequest is a 400 with
success false and the given message; serverError is the 500 of the catch
block with success false and the error message; refSuccess is the 200 of
the reference path; currentResult is the 200 of the current path with the
verdict and the optional diffImage and diffImageBase64 fields.  noResponse
is the unreachable fall-through after both mode branches. -/
inductive PostResponse where
  | badRequest (message : String)
  | serverError (error : String)
  | refSuccess (message : String)
  | currentResult (testCase : String) (result : String) (message : String)
      (diffImage : Option String) (diffImageBase64 : Option String)
  | noResponse
  deriving DecidableEq, Repr

/-- Subprocess launches performed while handling a request, as
(command, filter) pairs. -/
def SpawnLog := List (String × String)

instance : DecidableEq SpawnLog := inferInstanceAs (DecidableEq (List (String × String)))

/-- Model of the POST /backstop handler.  Returns the response, the state
after the request and the log of subprocess launches. -/
def handlePost (st : ServerState) (env : Env) (req : PostRequest) :
    PostResponse × ServerState × SpawnLog :=
  if req.testCase = "" ∨ req.mode = "" ∨ req.file = none then
    (PostResponse.badRequest "Missing required parameters: testCase, mode, and image file",
     st, [])
  else if ¬ (req.mode = "reference" ∨ req.mode = "current") then
    (PostResponse.badRequest "Mode must be 'reference' or 'current'", st, [])
  else
    match req.file with
    | none =>
      (PostResponse.badRequest "Missing required parameters: testCase, mode, and image file",
       st, [])
    | some uploadedFile =>
      let imageKey := req.testCase ++ "_" ++ req.mode
      let st := { st with
        uploadedImages := Store.set st.uploadedImages imageKey
          { path := uploadedFile.path
            mimetype := uploadedFile.mimetype
            originalname := uploadedFile.originalname } }
      if req.mode = "reference" then
        let st := updateBackstopConfig st [req.testCase]
        match runBackstopCommand "reference" env with
        | Except.error e => (PostResponse.serverError e, st, [("reference", req.testCase)])
        | Except.ok _ =>
          (PostResponse.refSuccess ("Reference screenshot captured for: " ++ req.testCase),
           st, [("reference", req.testCase)])
      else if req.mode = "current" then
        let referenceKey := req.testCase ++ "_reference"
        if ¬ Store.has st.uploadedImages referenceKey then
          (PostResponse.badRequest
            ("No reference image found for test case: " ++ req.testCase ++
             ". Please upload reference image first."),
           st, [])
        else
          let st := updateBackstopConfig st [req.testCase]
          match runBackstopCommand "test" env with
          | Except.error e => (PostResponse.serverError e, st, [("test", req.testCase)])
          | Except.ok result =>
            let backstopResult := if result.hasDifferences then "failed" else "passed"
            let (diffInfo, st) := findAndCopyDiffImage req.testCase st env.timestamp
            (PostResponse.currentResult req.testCase backstopResult
              (if backstopResult = "passed" then "No visual differences detected"
               else "Visual differences found")
              (if diffInfo.found then some diffInfo.path else none)
              (if diffInfo.found then some diffInfo.base64 else none),
             st, [("test", req.testCase)])
      else
        (PostResponse.noResponse, st, [])

/-- The diffImage field of a response, when the response is a current-path
result carrying one. -/
def PostResponse.diffImageField : PostResponse → Option String
  | PostResponse.currentResult _ _ _ d _ => d
  | _ => none

/-- The result (verdict) field of a current-path response. -/
def PostResponse.resultField : PostResponse → Option String
  | PostResponse.currentResult _ r _ _ _ => some r
  | _ => none

/-- A request that fails the validation stage of POST /backstop: a falsy
testCase or mode, a missing file, or a mode outside reference and current. -/
def failsValidation (req : PostRequest) : Prop :=
  req.testCase = "" ∨ req.mode = "" ∨ req.file = none ∨
    ¬ (req.mode = "reference" ∨ req.mode = "current")

instance (req : PostRequest) : Decidable (failsValidation req) := by
  unfold failsValidation; infer_instance

/-! ## Helper lemmas -/

theorem Store.get_set_self (s : Store) (k : String) (v : ImageRecord) :
    Store.get (Store.set s k v) k = some v := by
  simp [Store.set, Store.get]

theorem Store.get_set_ne (s : Store) (k k' : String) (v : ImageRecord) (h : k ≠ k') :
    Store.get (Store.set s k v) k' = Store.get s k' := by
  simp [Store.set, Store.get, h]

theorem Store.has_set_ne (s : Store) (k k' : String) (v : ImageRecord) (h : k ≠ k') :
    Store.has (Store.set s k v) k' = Store.has s k' := by
  simp [Store.has, Store.get_set_ne s k k' v h]

theorem data_append_eq (s t : String) : (s ++ t).data = s.data ++ t.data := rfl

theorem append_assoc_str (a b c : String) : a ++ b ++ c = a ++ (b ++ c) := by
  apply String.ext
  simp [data_append_eq, List.append_assoc]

theorem key_reference_assoc (tc : String) : tc ++ "_" ++ "reference" = tc ++ "_reference" := by
  rw [append_assoc_str]; rfl

theorem key_current_assoc (tc : String) : tc ++ "_" ++ "current" = tc ++ "_current" := by
  rw [append_assoc_str]; rfl

theorem key_current_ne_reference (tc : String) :
    tc ++ "_" ++ "current" ≠ tc ++ "_reference" := by
  rw [key_current_assoc]
  intro h
  have h2 : (tc ++ "_current").data.length = (tc ++ "_reference").data.length := by rw [h]
  rw [data_append_eq, data_append_eq, List.length_append, List.length_append] at h2
  have hc : ("_current" : String).data.length = 8 := rfl
  have hr : ("_reference" : String).data.length = 10 := rfl
  rw [hc, hr] at h2
  omega

theorem findAndCopyDiffImage_found_congr (tc ts : String) (st st' : ServerState)
    (hfs : st.fs = st'.fs) (htd : st.testDirFiles = st'.testDirFiles) :
    (findAndCopyDiffImage tc st ts).1 = (findAndCopyDiffImage tc st' ts).1 := by
  unfold findAndCopyDiffImage
  rw [htd, hfs]
  cases hfind : st'.testDirFiles.find? (fun f => isDiffCandidate tc f) with
  | none => simp
  | some f =>
    cases hread : FileSys.read st'.fs (testDir ++ "/" ++ f) with
    | none => simp [hread]
    | some bytes => simp [hread]

/-! ## Claim theorems -/

/-- C4: the close handler of runBackstopCommand resolves exactly when the
exit code is 0 or the command is test and stdout contains the token
report; a resolved result has hasDifferences true exactly when the exit
code is non-zero; every rejection message carries the exit code and the
captured stderr. -/
theorem runBackstopCommand_close_classification (command : String) (code : Int)
    (stdout stderr : String) :
    ((∃ r, classifyClose command code stdout stderr = Except.ok r) ↔
      (code = 0 ∨ (command = "test" ∧ strIncludes stdout "report" = true)))
    ∧ (∀ r, classifyClose command code stdout stderr = Except.ok r →
        (r.hasDifferences = true ↔ code ≠ 0))
    ∧ (∀ e, classifyClose command code stdout stderr = Except.error e →
        e = "BackstopJS failed with code " ++ toString code ++ ": " ++ stderr) := by
  by_cases h : code = 0 ∨ (command = "test" ∧ strIncludes stdout "report" = true) <;>
    simp [classifyClose, h, bne_iff_ne]

/-- Witness for C4: the test command with exit code 2 and a report token
in stdout resolves. -/
theorem runBackstopCommand_close_classification_witness :
    ∃ r, classifyClose "test" 2 "Closing report" "boom" = Except.ok r :=
  (runBackstopCommand_close_classification "test" 2 "Closing report" "boom").1.mpr
    (Or.inr ⟨rfl, by decide⟩)

/-- C9: createBackstopConfig emits exactly one scenario per test case
name, in the same order, each capture URL embedding the name as the final
path segment of the serve-image endpoint, a single fixed 1280x800
viewport, and both concurrency limits fixed to 1, for every input list. -/
theorem createBackstopConfig_shape (testCases : List String) :
    (createBackstopConfig testCases).scenarios.map Scenario.label = testCases
    ∧ (∀ s, s ∈ (createBackstopConfig testCases).scenarios →
        s.url = "http://127.0.0.1:3000/serve-image/" ++ s.label)
    ∧ (createBackstopConfig testCases).viewports
        = [{ label := "desktop", width := 1280, height := 800 }]
    ∧ (createBackstopConfig testCases).asyncCaptureLimit = 1
    ∧ (createBackstopConfig testCases).asyncCompareLimit = 1 := by
  refine ⟨?_, ?_, rfl, rfl, rfl⟩
  · simp only [createBackstopConfig, List.map_map]
    exact List.map_id testCases
  · intro s hs
    simp only [createBackstopConfig, List.mem_map] at hs
    obtain ⟨tc, -, rfl⟩ := hs
    rfl

/-- Witness for C9: the sole scenario generated for login carries the URL
ending in the test case name. -/
theorem createBackstopConfig_shape_witness :
    ({ label := "login", url := "http://127.0.0.1:3000/serve-image/login",
       selectors := ["body"], misMatchThreshold := 1 / 10,
       requireSameDimensions := false, delay := 1000 } : Scenario).url
      = "http://127.0.0.1:3000/serve-image/" ++ "login" := by
  refine (createBackstopConfig_shape ["login"]).2.1 _ ?_
  simp only [createBackstopConfig, List.map_cons, List.map_nil, List.mem_singleton]
  rfl

/-- C6: a POST /backstop request that fails validation (falsy testCase or
mode, missing file, or a mode outside reference and current) is answered
with a 400 bad request and has no side effects: the whole state, image
store and config file included, is unchanged and no subprocess is
launched. -/
theorem handlePost_validation_failure (st : ServerState) (env : Env) (req : PostRequest)
    (h : failsValidation req) :
    ∃ msg, handlePost st env req = (PostResponse.badRequest msg, st, []) := by
  by_cases h1 : req.testCase = "" ∨ req.mode = "" ∨ req.file = none
  · exact ⟨"Missing required parameters: testCase, mode, and image file",
      by simp [handlePost, h1]⟩
  · have h2 : ¬ (req.mode = "reference" ∨ req.mode = "current") := by
      rcases h with h | h | h | h
      · exact absurd (Or.inl h) h1
      · exact absurd (Or.inr (Or.inl h)) h1
      · exact absurd (Or.inr (Or.inr h)) h1
      · exact h
    exact ⟨"Mode must be 'reference' or 'current'", by simp [handlePost, h1, h2]⟩

/-- Witness for C6: an empty testCase leaves a concrete empty state
untouched. -/
theorem handlePost_validation_failure_witness :
    ∃ msg, handlePost ⟨[], [], [], none⟩ ⟨0, "", "", ""⟩ ⟨"", "current", none⟩
      = (PostResponse.badRequest msg, ⟨[], [], [], none⟩, []) :=
  handlePost_validation_failure ⟨[], [], [], none⟩ ⟨0, "", "", ""⟩ ⟨"", "current", none⟩
    (Or.inl rfl)

/-- C5: a current-mode request for a test case with no reference record in
the image store is answered with a 400 explanatory message and the test
command is never invoked (the spawn log stays empty). -/
theorem handlePost_current_without_reference (st : ServerState) (env : Env)
    (req : PostRequest) (f : UploadedFile)
    (htc : req.testCase ≠ "") (hm : req.mode = "current") (hf : req.file = some f)
    (href : Store.has st.uploadedImages (req.testCase ++ "_reference") = false) :
    (handlePost st env req).1 = PostResponse.badRequest
      ("No reference image found for test case: " ++ req.testCase ++
       ". Please upload reference image first.")
    ∧ (handlePost st env req).2.2 = [] := by
  have hkey := key_current_ne_reference req.testCase
  have hhas : Store.has
      (Store.set st.uploadedImages (req.testCase ++ "_" ++ "current")
        { path := f.path, mimetype := f.mimetype, originalname := f.originalname })
      (req.testCase ++ "_reference") = false := by
    rw [Store.has_set_ne _ _ _ _ hkey]; exact href
  constructor <;> simp [handlePost, htc, hm, hf, hhas]

/-- Witness for C5 at a concrete request against an empty store. -/
theorem handlePost_current_without_reference_witness :
    (handlePost ⟨[], [], [], none⟩ ⟨0, "", "", ""⟩
        ⟨"login", "current", some ⟨"temp_uploads/a", "image/png", "a.png"⟩⟩).1
      = PostResponse.badRequest
        ("No reference image found for test case: " ++ "login" ++
         ". Please upload reference image first.")
    ∧ (handlePost ⟨[], [], [], none⟩ ⟨0, "", "", ""⟩
        ⟨"login", "current", some ⟨"temp_uploads/a", "image/png", "a.png"⟩⟩).2.2 = [] :=
  handlePost_current_without_reference _ _ _ _ (by decide) rfl rfl rfl

/-- C10: a current-mode request rejected with 400 for lacking a reference
record has nevertheless mutated the image store: the resulting store is
the old store with the uploaded record bound under the current key. -/
theorem handlePost_current_rejected_still_stores (st : ServerState) (env : Env)
    (req : PostRequest) (f : UploadedFile)
    (htc : req.testCase ≠ "") (hm : req.mode = "current") (hf : req.file = some f)
    (href : Store.has st.uploadedImages (req.testCase ++ "_reference") = false) :
    (∃ msg, (handlePost st env req).1 = PostResponse.badRequest msg)
    ∧ (handlePost st env req).2.1.uploadedImages
        = Store.set st.uploadedImages (req.testCase ++ "_" ++ req.mode)
            { path := f.path, mimetype := f.mimetype, originalname := f.originalname }
    ∧ Store.get (handlePost st env req).2.1.uploadedImages (req.testCase ++ "_" ++ req.mode)
        = some { path := f.path, mimetype := f.mimetype, originalname := f.originalname } := by
  have hkey := key_current_ne_reference req.testCase
  have hhas : Store.has
      (Store.set st.uploadedImages (req.testCase ++ "_" ++ "current")
        { path := f.path, mimetype := f.mimetype, originalname := f.originalname })
      (req.testCase ++ "_reference") = false := by
    rw [Store.has_set_ne _ _ _ _ hkey]; exact href
  refine ⟨⟨"No reference image found for test case: " ++ req.testCase ++
      ". Please upload reference image first.", ?_⟩, ?_, ?_⟩
  · simp [handlePost, htc, hm, hf, hhas]
  · simp [handlePost, htc, hm, hf, hhas]
  · simp [handlePost, htc, hm, hf, hhas, Store.get_set_self]

/-- Witness for C10: the rejected request against an empty store leaves
the current record in the store. -/
theorem handlePost_current_rejected_still_stores_witness :
    (∃ msg, (handlePost ⟨[], [], [], none⟩ ⟨0, "", "", ""⟩
        ⟨"login", "current", some ⟨"temp_uploads/a", "image/png", "a.png"⟩⟩).1
      = PostResponse.badRequest msg)
    ∧ (handlePost ⟨[], [], [], none⟩ ⟨0, "", "", ""⟩
        ⟨"login", "current", some ⟨"temp_uploads/a", "image/png", "a.png"⟩⟩).2.1.uploadedImages
        = Store.set [] ("login" ++ "_" ++ "current")
            { path := "temp_uploads/a", mimetype := "image/png", originalname := "a.png" }
    ∧ Store.get (handlePost ⟨[], [], [], none⟩ ⟨0, "", "", ""⟩
        ⟨"login", "current", some ⟨"temp_uploads/a", "image/png", "a.png"⟩⟩).2.1.uploadedImages
        ("login" ++ "_" ++ "current")
        = some { path := "temp_uploads/a", mimetype := "image/png", originalname := "a.png" } :=
  handlePost_current_rejected_still_stores ⟨[], [], [], none⟩ ⟨0, "", "", ""⟩
    ⟨"login", "current", some ⟨"temp_uploads/a", "image/png", "a.png"⟩⟩
    ⟨"temp_uploads/a", "image/png", "a.png"⟩ (by decide) rfl rfl rfl

/-- C2 counterexample: a valid reference-mode request whose reference run
exits with code 1 is answered with a 500 server error, not with success. -/
theorem handlePost_reference_nonzero_exit_errors :
    (handlePost ⟨[], [], [], none⟩ ⟨1, "", "boom", "ts"⟩
        ⟨"login", "reference", some ⟨"temp_uploads/a", "image/png", "a.png"⟩⟩).1
      = PostResponse.serverError "BackstopJS failed with code 1: boom" := by
  rfl

/-- C2 amended: a validated reference-mode request synthesizes the config
for the single test case, invokes the reference command, and responds
success exactly when the run exits 0; a non-zero exit of the reference run
is surfaced as a 500 error carrying the exit code and captured stderr. -/
theorem handlePost_reference_outcome (st : ServerState) (env : Env)
    (req : PostRequest) (f : UploadedFile)
    (htc : req.testCase ≠ "") (hm : req.mode = "reference") (hf : req.file = some f) :
    (handlePost st env req).2.1.configFile = some (createBackstopConfig [req.testCase])
    ∧ (handlePost st env req).2.2 = [("reference", req.testCase)]
    ∧ (handlePost st env req).1 =
        (if env.closeCode = 0 then
          PostResponse.refSuccess ("Reference screenshot captured for: " ++ req.testCase)
        else
          PostResponse.serverError
            ("BackstopJS failed with code " ++ toString env.closeCode ++ ": "
              ++ env.closeStderr)) := by
  by_cases hc : env.closeCode = 0
  · refine ⟨?_, ?_, ?_⟩ <;>
      simp [handlePost, htc, hm, hf, runBackstopCommand, classifyClose, hc,
        updateBackstopConfig]
  · refine ⟨?_, ?_, ?_⟩ <;>
      simp [handlePost, htc, hm, hf, runBackstopCommand, classifyClose, hc,
        updateBackstopConfig]

/-- Witness for C2 amended: a concrete passing reference run writes the
config, spawns the reference command once and answers success. -/
theorem handlePost_reference_outcome_witness :
    (handlePost ⟨[], [], [], none⟩ ⟨0, "", "", "ts"⟩
        ⟨"login", "reference", some ⟨"temp_uploads/a", "image/png", "a.png"⟩⟩).2.1.configFile
      = some (createBackstopConfig ["login"])
    ∧ (handlePost ⟨[], [], [], none⟩ ⟨0, "", "", "ts"⟩
        ⟨"login", "reference", some ⟨"temp_uploads/a", "image/png", "a.png"⟩⟩).2.2
      = [("reference", "login")]
    ∧ (handlePost ⟨[], [], [], none⟩ ⟨0, "", "", "ts"⟩
        ⟨"login", "reference", some ⟨"temp_uploads/a", "image/png", "a.png"⟩⟩).1
      = (if (0 : Int) = 0 then
          PostResponse.refSuccess ("Reference screenshot captured for: " ++ "login")
        else
          PostResponse.serverError
            ("BackstopJS failed with code " ++ toString (0 : Int) ++ ": " ++ "")) :=
  handlePost_reference_outcome ⟨[], [], [], none⟩ ⟨0, "", "", "ts"⟩
    ⟨"login", "reference", some ⟨"temp_uploads/a", "image/png", "a.png"⟩⟩
    ⟨"temp_uploads/a", "image/png", "a.png"⟩ (by decide) rfl rfl

/-- C3 counterexample: with both a current and a reference record stored
for login, a serve-image request with the mode parameter omitted serves
the current record even though the reference record exists, and its page
differs from the page of an explicit mode=reference request. -/
theorem serveImage_omitted_mode_prefers_current :
    serveImage
        ⟨[("login_reference", ⟨"pr", "image/png", "r.png"⟩),
          ("login_current", ⟨"pc", "image/jpeg", "c.png"⟩)],
         [("pr", [1]), ("pc", [2])], [], none⟩
        "login" none
      = ServeResult.page "image/jpeg" "Ag==" "login"
    ∧ serveImage
        ⟨[("login_reference", ⟨"pr", "image/png", "r.png"⟩),
          ("login_current", ⟨"pc", "image/jpeg", "c.png"⟩)],
         [("pr", [1]), ("pc", [2])], [], none⟩
        "login" (some "reference")
      = ServeResult.page "image/png" "AQ==" "login"
    ∧ ServeResult.page "image/jpeg" "Ag==" "login"
        ≠ ServeResult.page "image/png" "AQ==" "login" := by
  refine ⟨rfl, rfl, ?_⟩
  decide

/-- C3 amended: a serve-image request with the mode parameter omitted is
answered from the current record whenever one is stored (it serves that
record and agrees with an explicit mode=current request); only when no
current record is stored does it fall back to the reference record,
agreeing with an explicit mode=reference request. -/
theorem serveImage_omitted_mode_resolution (st : ServerState) (tc : String) :
    (∀ d, Store.get st.uploadedImages (tc ++ "_current") = some d →
        serveImage st tc none = serveImage st tc (some "current")
        ∧ serveImage st tc none
            = (match FileSys.read st.fs d.path with
               | none => ServeResult.notFound
               | some bytes =>
                 ServeResult.page (if d.mimetype = "" then "image/png" else d.mimetype)
                   (base64Encode bytes) tc))
    ∧ (Store.get st.uploadedImages (tc ++ "_current") = none →
        serveImage st tc none = serveImage st tc (some "reference")) := by
  constructor
  · intro d h
    constructor <;> simp [serveImage, falsyOpt, h]
  · intro h
    simp [serveImage, falsyOpt, h]

/-- Witness for C3 amended: with a current record stored the omitted-mode
request agrees with the explicit current request, and with only a
reference record stored it agrees with the explicit reference request. -/
theorem serveImage_omitted_mode_resolution_witness :
    serveImage ⟨[("login_reference", ⟨"pr", "image/png", "r.png"⟩),
        ("login_current", ⟨"pc", "image/jpeg", "c.png"⟩)], [("pr", [1]), ("pc", [2])], [], none⟩
        "login" none
      = serveImage ⟨[("login_reference", ⟨"pr", "image/png", "r.png"⟩),
          ("login_current", ⟨"pc", "image/jpeg", "c.png"⟩)], [("pr", [1]), ("pc", [2])], [], none⟩
        "login" (some "current")
    ∧ serveImage ⟨[("login_reference", ⟨"pr", "image/png", "r.png"⟩)], [("pr", [1])], [], none⟩
        "login" none
      = serveImage ⟨[("login_reference", ⟨"pr", "image/png", "r.png"⟩)], [("pr", [1])], [], none⟩
        "login" (some "reference") :=
  ⟨((serveImage_omitted_mode_resolution
      ⟨[("login_reference", ⟨"pr", "image/png", "r.png"⟩),
        ("login_current", ⟨"pc", "image/jpeg", "c.png"⟩)], [("pr", [1]), ("pc", [2])], [], none⟩
      "login").1 ⟨"pc", "image/jpeg", "c.png"⟩ rfl).1,
   (serveImage_omitted_mode_resolution
      ⟨[("login_reference", ⟨"pr", "image/png", "r.png"⟩)], [("pr", [1])], [], none⟩
      "login").2 rfl⟩

/-- C8: storing under a key unconditionally overwrites: after two uploads
under the same key the store yields only the newest record, lookups under
other keys are unaffected, and serve-image answers after the two uploads
exactly as it would after just the newest one. -/
theorem store_overwrite_last_wins (s : Store) (k k' : String) (r1 r2 : ImageRecord)
    (h : k' ≠ k) :
    Store.get (Store.set (Store.set s k r1) k r2) k = some r2
    ∧ Store.get (Store.set (Store.set s k r1) k r2) k' = Store.get s k'
    ∧ ∀ fs td cfg tc,
        serveImage ⟨Store.set (Store.set s (tc ++ "_reference") r1) (tc ++ "_reference") r2,
            fs, td, cfg⟩ tc (some "reference")
        = serveImage ⟨Store.set s (tc ++ "_reference") r2, fs, td, cfg⟩ tc (some "reference") := by
  refine ⟨Store.get_set_self _ _ _, ?_, ?_⟩
  · rw [Store.get_set_ne _ _ _ _ (Ne.symm h), Store.get_set_ne _ _ _ _ (Ne.symm h)]
  · intro fs td cfg tc
    simp [serveImage, Store.get_set_self, falsyOpt]

/-- Witness for C8: two uploads under the login reference key leave only
the second record visible. -/
theorem store_overwrite_last_wins_witness :
    Store.get (Store.set (Store.set [] "login_reference" ⟨"p1", "image/png", "a.png"⟩)
        "login_reference" ⟨"p2", "image/png", "b.png"⟩) "login_reference"
      = some ⟨"p2", "image/png", "b.png"⟩ :=
  (store_overwrite_last_wins [] "login_reference" "other"
    ⟨"p1", "image/png", "a.png"⟩ ⟨"p2", "image/png", "b.png"⟩ (by decide)).1

/-- C7: round-trip: after a successful reference upload for a test case,
the serve-image page for that test case with mode reference embeds exactly
the uploaded bytes in base64, under the declared content type. -/
theorem upload_serve_roundtrip (st : ServerState) (env : Env) (tc : String)
    (f : UploadedFile) (bytes : List Nat)
    (htc : tc ≠ "") (hmime : f.mimetype ≠ "")
    (hread : FileSys.read st.fs f.path = some bytes)
    (hcode : env.closeCode = 0) :
    (handlePost st env ⟨tc, "reference", some f⟩).1
        = PostResponse.refSuccess ("Reference screenshot captured for: " ++ tc)
    ∧ serveImage (handlePost st env ⟨tc, "reference", some f⟩).2.1 tc (some "reference")
        = ServeResult.page f.mimetype (base64Encode bytes) tc := by
  have hkey := key_reference_assoc tc
  constructor
  · simp [handlePost, htc, runBackstopCommand, classifyClose, hcode]
  · simp [handlePost, htc, runBackstopCommand, classifyClose, hcode, updateBackstopConfig,
      serveImage, falsyOpt, hkey, Store.get_set_self, hread, hmime]

/-- Witness for C7: uploading three bytes as the login reference and
fetching the page returns their base64 with the declared type. -/
theorem upload_serve_roundtrip_witness :
    (handlePost ⟨[], [("temp_uploads/a", [1, 2, 3])], [], none⟩ ⟨0, "", "", "ts"⟩
        ⟨"login", "reference", some ⟨"temp_uploads/a", "image/png", "a.png"⟩⟩).1
      = PostResponse.refSuccess ("Reference screenshot captured for: " ++ "login")
    ∧ serveImage
        (handlePost ⟨[], [("temp_uploads/a", [1, 2, 3])], [], none⟩ ⟨0, "", "", "ts"⟩
          ⟨"login", "reference", some ⟨"temp_uploads/a", "image/png", "a.png"⟩⟩).2.1
        "login" (some "reference")
      = ServeResult.page "image/png" (base64Encode [1, 2, 3]) "login" :=
  upload_serve_roundtrip ⟨[], [("temp_uploads/a", [1, 2, 3])], [], none⟩ ⟨0, "", "", "ts"⟩
    "login" ⟨"temp_uploads/a", "image/png", "a.png"⟩ [1, 2, 3]
    (by decide) (by decide) rfl rfl

/-- C1 counterexample: a current-mode comparison that passes (exit code 0)
still carries the diffImage field when a stale matching artifact sits in
the test-bitmap directory, because the diff search runs regardless of the
verdict. -/
theorem handlePost_passed_verdict_with_diffImage :
    (handlePost
        ⟨[("login_reference", ⟨"temp_uploads/ref1", "image/png", "ref.png"⟩)],
         [("backstop_data/bitmaps_test/login_diff.png", [9, 9])],
         ["login_diff.png"], none⟩
        ⟨0, "", "", "ts"⟩
        ⟨"login", "current", some ⟨"temp_uploads/cur1", "image/png", "cur.png"⟩⟩).1
      = PostResponse.currentResult "login" "passed" "No visual differences detected"
          (some "diff_images/login_ts_diff.png") (some "CQk=") := by
  rfl

/-- C1 amended: a successful current-mode response carries the diffImage
field exactly when the diff locator finds a readable matching artifact in
the test-bitmap directory; its presence is independent of the verdict,
which is passed exactly when the exit code is 0. -/
theorem handlePost_current_diffImage_iff_found (st : ServerState) (env : Env)
    (req : PostRequest) (f : UploadedFile)
    (htc : req.testCase ≠ "") (hm : req.mode = "current") (hf : req.file = some f)
    (href : Store.has st.uploadedImages (req.testCase ++ "_reference") = true)
    (hrun : env.closeCode = 0 ∨ strIncludes env.closeStdout "report" = true) :
    (handlePost st env req).1.diffImageField.isSome
        = (findAndCopyDiffImage req.testCase st env.timestamp).1.found
    ∧ (handlePost st env req).1.resultField
        = some (if env.closeCode = 0 then "passed" else "failed") := by
  obtain ⟨tc, mode, file⟩ := req
  simp only at htc hm hf href ⊢
  subst hm hf
  have hkey := key_current_ne_reference tc
  have hhas : Store.has
      (Store.set st.uploadedImages (tc ++ "_" ++ "current")
        { path := f.path, mimetype := f.mimetype, originalname := f.originalname })
      (tc ++ "_reference") = true := by
    rw [Store.has_set_ne _ _ _ _ hkey]; exact href
  have hcg : (findAndCopyDiffImage tc
      (ServerState.mk
        (Store.set st.uploadedImages (tc ++ "_" ++ "current")
          (ImageRecord.mk f.path f.mimetype f.originalname))
        st.fs st.testDirFiles (some (createBackstopConfig [tc]))) env.timestamp).1
      = (findAndCopyDiffImage tc st env.timestamp).1 :=
    findAndCopyDiffImage_found_congr _ _ _ _ rfl rfl
  by_cases hc : env.closeCode = 0
  · simp [handlePost, htc, hhas, runBackstopCommand, classifyClose, hrun, hc,
      updateBackstopConfig, PostResponse.diffImageField, PostResponse.resultField, hcg]
    cases hdi : (findAndCopyDiffImage tc st env.timestamp).1.found <;> simp [hdi]
  · have hs : strIncludes env.closeStdout "report" = true := hrun.resolve_left hc
    simp [handlePost, htc, hhas, runBackstopCommand, classifyClose, hs, hc,
      updateBackstopConfig, PostResponse.diffImageField, PostResponse.resultField,
      bne_iff_ne, hcg]
    cases hdi : (findAndCopyDiffImage tc st env.timestamp).1.found <;> simp [hdi]

/-- Witness for C1 amended: a passing comparison with no artifact in the
test-bitmap directory carries no diffImage. -/
theorem handlePost_current_diffImage_iff_found_witness :
    ((handlePost ⟨[("login_reference", ⟨"pr", "image/png", "r.png"⟩)], [("pr", [1])], [], none⟩
        ⟨0, "", "", "ts"⟩
        ⟨"login", "current", some ⟨"pc", "image/png", "c.png"⟩⟩).1.diffImageField.isSome
      = (findAndCopyDiffImage "login"
          ⟨[("login_reference", ⟨"pr", "image/png", "r.png"⟩)], [("pr", [1])], [], none⟩
          "ts").1.found)
    ∧ (handlePost ⟨[("login_reference", ⟨"pr", "image/png", "r.png"⟩)], [("pr", [1])], [], none⟩
        ⟨0, "", "", "ts"⟩
        ⟨"login", "current", some ⟨"pc", "image/png", "c.png"⟩⟩).1.resultField
      = some (if (0 : Int) = 0 then "passed" else "failed") :=
  handlePost_current_diffImage_iff_found
    ⟨[("login_reference", ⟨"pr", "image/png", "r.png"⟩)], [("pr", [1])], [], none⟩
    ⟨0, "", "", "ts"⟩
    ⟨"login", "current", some ⟨"pc", "image/png", "c.png"⟩⟩
    ⟨"pc", "image/png", "c.png"⟩
    (by decide) rfl rfl (by decide) (Or.inl rfl)

end BackstopApi
